import Mathlib

/-!
# SchoolConnect: multi-tenant authorization model

A shallow embedding of the SchoolConnect repository's authorization and
tenancy core.  The data model and the row-level-security (RLS) policies are
transcribed from the database migration
`supabase/migrations/20260130091328_*.sql`; the application-level operations
(school creation, admin CRUD on scholarships/fees/notices) are transcribed
from the React hooks and pages (`useSchool`, `CreateSchool`,
`AdminScholarships`, `AdminFees`, `AdminNotices`, `JoinSchool`).

Machine conventions:
* user ids and row ids are `Nat` (opaque identifiers);
* timestamps are `Nat` (an abstract monotone clock standing for `now()`);
* `auth.uid()` is an `Option Nat` — `none` models an unauthenticated caller,
  and any SQL comparison `col = auth.uid()` with a NULL uid is false,
  matching SQL three-valued logic collapsing to "not visible";
* policy evaluation follows PostgreSQL's documented RLS semantics:
  permissive policies for a command are OR-ed; a command with no policy is
  denied; for UPDATE the USING expression is checked on the existing row and
  the WITH CHECK expression on the updated row, with a missing WITH CHECK
  falling back to the USING expression.
-/

namespace SchoolConnect

/-- Opaque user identifier (`auth.users.id`). -/
abbrev UserId := Nat

/-- Abstract timestamp (value of `now()` at some instant). -/
abbrev Time := Nat

/-- `public.app_role` enum from the migration. -/
inductive AppRole where
  | admin
  | student
deriving DecidableEq, Repr

/-- Row of `public.schools`. -/
structure SchoolRow where
  id : Nat
  name : String
  school_code : String
  admin_id : UserId
  created_at : Time
  updated_at : Time
deriving DecidableEq, Repr

/-- Row of `public.profiles` (`school_code` is nullable). -/
structure ProfileRow where
  id : Nat
  user_id : UserId
  full_name : String
  school_code : Option String
  created_at : Time
  updated_at : Time
deriving DecidableEq, Repr

/-- Row of `public.user_roles`. -/
structure UserRoleRow where
  id : Nat
  user_id : UserId
  role : AppRole
deriving DecidableEq, Repr

/-- Row of `public.scholarships`.  `amount` is `DECIMAL(10,2)`, modelled as an
integer number of cents; `deadline` is a `DATE`, modelled as `Nat`. -/
structure ScholarshipRow where
  id : Nat
  school_code : String
  title : String
  description : Option String
  amount : Option Int
  deadline : Option Nat
  eligibility : Option String
  created_at : Time
  updated_at : Time
deriving DecidableEq, Repr

/-- Row of `public.fees` (`amount` is NOT NULL). -/
structure FeeRow where
  id : Nat
  school_code : String
  title : String
  description : Option String
  amount : Int
  due_date : Option Nat
  category : Option String
  created_at : Time
  updated_at : Time
deriving DecidableEq, Repr

/-- Row of `public.notices`. -/
structure NoticeRow where
  id : Nat
  school_code : String
  title : String
  content : String
  priority : String
  created_at : Time
  updated_at : Time
deriving DecidableEq, Repr

/-- Database state: the six tables created by the migration. -/
structure DB where
  schools : List SchoolRow
  profiles : List ProfileRow
  user_roles : List UserRoleRow
  scholarships : List ScholarshipRow
  fees : List FeeRow
  notices : List NoticeRow
deriving Repr

/-- The empty database, right after the migration runs. -/
def DB.empty : DB := ⟨[], [], [], [], [], []⟩

/-- `public.has_role(_user_id, _role)`: EXISTS a `user_roles` row with that
user id and role.  An unauthenticated uid (`none`) matches no row, as SQL
`user_id = NULL` is never true. -/
def has_role (db : DB) (uid : Option UserId) (r : AppRole) : Bool :=
  db.user_roles.any (fun row => some row.user_id == uid && row.role == r)

/-- `public.get_user_school_code(_user_id)`: the `school_code` of the caller's
profile row; NULL when there is no profile row or the column is NULL. -/
def get_user_school_code (db : DB) (uid : Option UserId) : Option String :=
  match db.profiles.find? (fun row => some row.user_id == uid) with
  | some p => p.school_code
  | none => none

/-- `public.is_school_admin(_user_id, _school_code)`: EXISTS a `schools` row
with that admin id and school code. -/
def is_school_admin (db : DB) (uid : Option UserId) (code : String) : Bool :=
  db.schools.any (fun s => some s.admin_id == uid && s.school_code == code)

/-! ## RLS policy engine

`CREATE POLICY ... FOR cmd USING (expr) [WITH CHECK (expr)]`, evaluated per
PostgreSQL semantics for permissive policies. -/

/-- SQL command a policy applies to. -/
inductive Cmd where
  | select
  | insert
  | update
  | delete
deriving DecidableEq, Repr

/-- One `CREATE POLICY` statement for a table whose rows have type `Row`.
Either clause may be absent, as in the migration's policies. -/
structure Policy (Row : Type) where
  name : String
  cmd : Cmd
  usingPred : Option (DB → Option UserId → Row → Bool)
  checkPred : Option (DB → Option UserId → Row → Bool)

/-- Evaluate a policy's USING clause on a row (absent USING never applies
to a read of an existing row). -/
def evalUsing {Row : Type} (db : DB) (uid : Option UserId) (row : Row)
    (p : Policy Row) : Bool :=
  match p.usingPred with
  | some f => f db uid row
  | none => false

/-- Evaluate a policy's WITH CHECK clause on a (new) row.  PostgreSQL: when
WITH CHECK is omitted, the USING expression is applied to new rows as well. -/
def evalCheck {Row : Type} (db : DB) (uid : Option UserId) (row : Row)
    (p : Policy Row) : Bool :=
  match p.checkPred with
  | some f => f db uid row
  | none => evalUsing db uid row p

/-- A SELECT of `row` is visible iff some SELECT policy's USING passes.
With no SELECT policy the table yields nothing (default deny). -/
def allowSelect {Row : Type} (pols : List (Policy Row)) (db : DB)
    (uid : Option UserId) (row : Row) : Bool :=
  (pols.filter (fun p => p.cmd == Cmd.select)).any (evalUsing db uid row)

/-- An INSERT of `row` is allowed iff some INSERT policy's check passes. -/
def allowInsert {Row : Type} (pols : List (Policy Row)) (db : DB)
    (uid : Option UserId) (row : Row) : Bool :=
  (pols.filter (fun p => p.cmd == Cmd.insert)).any (evalCheck db uid row)

/-- An UPDATE turning `oldRow` into `newRow` is allowed iff the existing row
passes some UPDATE policy's USING and the updated row passes some UPDATE
policy's check (USING doubling as WITH CHECK when the latter is absent). -/
def allowUpdate {Row : Type} (pols : List (Policy Row)) (db : DB)
    (uid : Option UserId) (oldRow newRow : Row) : Bool :=
  (pols.filter (fun p => p.cmd == Cmd.update)).any (evalUsing db uid oldRow) &&
  (pols.filter (fun p => p.cmd == Cmd.update)).any (evalCheck db uid newRow)

/-- A DELETE of `row` is allowed iff some DELETE policy's USING passes. -/
def allowDelete {Row : Type} (pols : List (Policy Row)) (db : DB)
    (uid : Option UserId) (row : Row) : Bool :=
  (pols.filter (fun p => p.cmd == Cmd.delete)).any (evalUsing db uid row)

/-! ## The migration's policies, table by table -/

/-- RLS policies on `public.profiles` (migration lines 122-130). -/
def profilesPolicies : List (Policy ProfileRow) :=
  [ ⟨"Users can view own profile", Cmd.select,
      some (fun _ uid row => uid == some row.user_id), none⟩,
    ⟨"Users can update own profile", Cmd.update,
      some (fun _ uid row => uid == some row.user_id), none⟩,
    ⟨"Users can insert own profile", Cmd.insert,
      none, some (fun _ uid row => uid == some row.user_id)⟩ ]

/-- RLS policies on `public.user_roles` (migration lines 132-137): SELECT and
INSERT only — no UPDATE or DELETE policy exists. -/
def userRolesPolicies : List (Policy UserRoleRow) :=
  [ ⟨"Users can view own role", Cmd.select,
      some (fun _ uid row => uid == some row.user_id), none⟩,
    ⟨"Users can insert own role", Cmd.insert,
      none, some (fun _ uid row => uid == some row.user_id)⟩ ]

/-- RLS policies on `public.schools` (migration lines 139-147): public
SELECT; INSERT requires the admin role and self-assigned `admin_id`;
UPDATE requires ownership; no DELETE policy. -/
def schoolsPolicies : List (Policy SchoolRow) :=
  [ ⟨"Anyone can view schools", Cmd.select,
      some (fun _ _ _ => true), none⟩,
    ⟨"Admins can insert schools", Cmd.insert,
      none, some (fun db uid row =>
        has_role db uid AppRole.admin && some row.admin_id == uid)⟩,
    ⟨"Admins can update own schools", Cmd.update,
      some (fun _ uid row => some row.admin_id == uid), none⟩ ]

/-- RLS policies on `public.scholarships` (migration lines 149-160). -/
def scholarshipsPolicies : List (Policy ScholarshipRow) :=
  [ ⟨"Users can view scholarships of their school", Cmd.select,
      some (fun db uid row =>
        get_user_school_code db uid == some row.school_code ||
        is_school_admin db uid row.school_code), none⟩,
    ⟨"Admins can insert scholarships", Cmd.insert,
      none, some (fun db uid row => is_school_admin db uid row.school_code)⟩,
    ⟨"Admins can update scholarships", Cmd.update,
      some (fun db uid row => is_school_admin db uid row.school_code), none⟩,
    ⟨"Admins can delete scholarships", Cmd.delete,
      some (fun db uid row => is_school_admin db uid row.school_code), none⟩ ]

/-- RLS policies on `public.fees` (migration lines 162-173). -/
def feesPolicies : List (Policy FeeRow) :=
  [ ⟨"Users can view fees of their school", Cmd.select,
      some (fun db uid row =>
        get_user_school_code db uid == some row.school_code ||
        is_school_admin db uid row.school_code), none⟩,
    ⟨"Admins can insert fees", Cmd.insert,
      none, some (fun db uid row => is_school_admin db uid row.school_code)⟩,
    ⟨"Admins can update fees", Cmd.update,
      some (fun db uid row => is_school_admin db uid row.school_code), none⟩,
    ⟨"Admins can delete fees", Cmd.delete,
      some (fun db uid row => is_school_admin db uid row.school_code), none⟩ ]

/-- RLS policies on `public.notices` (migration lines 175-186). -/
def noticesPolicies : List (Policy NoticeRow) :=
  [ ⟨"Users can view notices of their school", Cmd.select,
      some (fun db uid row =>
        get_user_school_code db uid == some row.school_code ||
        is_school_admin db uid row.school_code), none⟩,
    ⟨"Admins can insert notices", Cmd.insert,
      none, some (fun db uid row => is_school_admin db uid row.school_code)⟩,
    ⟨"Admins can update notices", Cmd.update,
      some (fun db uid row => is_school_admin db uid row.school_code), none⟩,
    ⟨"Admins can delete notices", Cmd.delete,
      some (fun db uid row => is_school_admin db uid row.school_code), none⟩ ]

/-- A well-formed database: the UNIQUE constraints declared by the migration
hold — `schools.school_code`, `profiles.user_id`, and `(user_id, role)` in
`user_roles` are duplicate-free. -/
abbrev WellFormed (db : DB) : Prop :=
  db.schools.Pairwise (fun a b => a.school_code ≠ b.school_code) ∧
  db.profiles.Pairwise (fun a b => a.user_id ≠ b.user_id) ∧
  db.user_roles.Pairwise (fun a b => a.user_id ≠ b.user_id ∨ a.role ≠ b.role)

/-! ## Application-level lookups (`useUserRole`, `useAuth`) -/

/-- `useUserRole.fetchRole`: `select role from user_roles where user_id = u`
followed by `.single()` — succeeds exactly when the user has exactly one
role row (RLS shows the caller precisely their own rows). -/
def fetchRole (db : DB) (u : UserId) : Option AppRole :=
  match db.user_roles.filter (fun row => row.user_id == u) with
  | [r] => some r.role
  | _ => none

/-- Whether a user already owns a profile row (`profiles.user_id` UNIQUE). -/
def hasProfile (db : DB) (u : UserId) : Bool :=
  db.profiles.any (fun p => p.user_id == u)

/-! ## School creation (`useSchool.createSchool`, `CreateSchool.handleSubmit`) -/

/-- Backend error surfaced to the client (`error.message`). -/
structure DbError where
  message : String
deriving DecidableEq, Repr

/-- PostgreSQL's error for a violation of the UNIQUE constraint on
`schools.school_code`. -/
def uniqueViolationSchoolCode : DbError :=
  ⟨"duplicate key value violates unique constraint \x22schools_school_code_key\x22"⟩

/-- RLS rejection of an INSERT whose WITH CHECK fails. -/
def rlsViolationSchools : DbError :=
  ⟨"new row violates row-level security policy for table \x22schools\x22"⟩

/-- `useSchool.createSchool`'s code normalization:
`schoolCode.toUpperCase().replace(/[^A-Z0-9]/g, '')`. -/
def normalizeCode (raw : String) : String :=
  String.mk ((raw.toList.map Char.toUpper).filter
    (fun c => (decide ('A' ≤ c) && decide (c ≤ 'Z')) || c.isDigit))

/-- Apply `update profiles set school_code = code where user_id = u`, firing
the `update_profiles_updated_at` trigger (`NEW.updated_at = now()`) and the
profiles UPDATE policy on each targeted row. -/
def updateOwnProfileCode (db : DB) (u : UserId) (code : String) (now : Time) :
    DB :=
  { db with profiles := db.profiles.map (fun p =>
      if p.user_id == u && allowUpdate profilesPolicies db (some u) p
          { p with school_code := some code, updated_at := now } then
        { p with school_code := some code, updated_at := now }
      else p) }

/-- `useSchool.createSchool(name, schoolCode)`: normalize the code, insert a
`schools` row with `admin_id` self-assigned (RLS WITH CHECK, then the UNIQUE
constraint on `school_code`), and on success stamp the admin's own profile
with the new code.  `sid` is the fresh row id `gen_random_uuid()` produces. -/
def createSchool (db : DB) (uid : Option UserId) (sid : Nat)
    (name rawCode : String) (now : Time) : Except DbError DB :=
  match uid with
  | none => Except.error ⟨"Not authenticated"⟩
  | some u =>
    let code := normalizeCode rawCode
    let row : SchoolRow := ⟨sid, name, code, u, now, now⟩
    if allowInsert schoolsPolicies db uid row then
      if db.schools.any (fun s => s.school_code == code) then
        Except.error uniqueViolationSchoolCode
      else
        updateOwnProfileCode { db with schools := row :: db.schools } u code now
          |> Except.ok
    else
      Except.error rlsViolationSchools

/-- `CreateSchool.handleSubmit`'s error rendering:
`error.message.includes('duplicate')` selects the specific
"code is already taken" description, anything else falls through to the raw
message. -/
def describeCreateSchoolError (e : DbError) : String :=
  if List.IsInfix "duplicate".toList e.message.toList then
    "This school code is already taken. Please choose a different one."
  else
    e.message

/-! ## Admin CRUD payloads (`AdminScholarships`, `AdminFees`, `AdminNotices`) -/

/-- The `scholarshipData` object sent by `AdminScholarships.handleSubmit`. -/
structure ScholarshipData where
  school_code : String
  title : String
  description : Option String
  amount : Option Int
  deadline : Option Nat
  eligibility : Option String
deriving DecidableEq, Repr

/-- The `feeData` object sent by `AdminFees.handleSubmit`. -/
structure FeeData where
  school_code : String
  title : String
  description : Option String
  amount : Int
  due_date : Option Nat
  category : Option String
deriving DecidableEq, Repr

/-- The `noticeData` object sent by `AdminNotices.handleSubmit`. -/
structure NoticeData where
  school_code : String
  title : String
  content : String
  priority : String
deriving DecidableEq, Repr

/-- Write a scholarship payload over an existing row; the
`update_scholarships_updated_at` trigger sets `updated_at = now()`, while
`id` and `created_at` are untouched. -/
def applyScholarshipData (d : ScholarshipData) (r : ScholarshipRow)
    (now : Time) : ScholarshipRow :=
  { r with school_code := d.school_code, title := d.title,
           description := d.description, amount := d.amount,
           deadline := d.deadline, eligibility := d.eligibility,
           updated_at := now }

/-- Fresh scholarship row from an insert payload: `created_at` and
`updated_at` both default to `now()`. -/
def newScholarshipRow (rowId : Nat) (d : ScholarshipData) (now : Time) :
    ScholarshipRow :=
  ⟨rowId, d.school_code, d.title, d.description, d.amount, d.deadline,
    d.eligibility, now, now⟩

/-- Write a fee payload over an existing row (trigger refreshes
`updated_at`). -/
def applyFeeData (d : FeeData) (r : FeeRow) (now : Time) : FeeRow :=
  { r with school_code := d.school_code, title := d.title,
           description := d.description, amount := d.amount,
           due_date := d.due_date, category := d.category,
           updated_at := now }

/-- Fresh fee row from an insert payload. -/
def newFeeRow (rowId : Nat) (d : FeeData) (now : Time) : FeeRow :=
  ⟨rowId, d.school_code, d.title, d.description, d.amount, d.due_date,
    d.category, now, now⟩

/-- Write a notice payload over an existing row (trigger refreshes
`updated_at`). -/
def applyNoticeData (d : NoticeData) (r : NoticeRow) (now : Time) :
    NoticeRow :=
  { r with school_code := d.school_code, title := d.title,
           content := d.content, priority := d.priority,
           updated_at := now }

/-- Fresh notice row from an insert payload. -/
def newNoticeRow (rowId : Nat) (d : NoticeData) (now : Time) : NoticeRow :=
  ⟨rowId, d.school_code, d.title, d.content, d.priority, now, now⟩

/-! ## Exposed operations

The operations the application exposes, per the spec's state machine
(signup, createTenant, joinTenant) and the admin CRUD pages.  Each database
write goes through the corresponding RLS policies; rejected writes leave the
state unchanged. -/

/-- One exposed operation of the system. -/
inductive Op where
  /-- Modelled from the spec: `useAuth`'s signup flow is not under `src/`;
  per the spec, signup creates the Profile (with `school_code` NULL) and the
  Role assignment in one step, and a second signup for an existing identity
  is rejected (UNIQUE `profiles.user_id`). -/
  | signup (u : UserId) (pid rid : Nat) (fullName : String) (r : AppRole)
      (now : Time)
  /-- `useSchool.createSchool` (a failed creation changes nothing). -/
  | createTenant (u : UserId) (sid : Nat) (name rawCode : String) (now : Time)
  /-- Modelled from the spec: `useAuth.joinSchool` is not under `src/`; per
  the spec, joinTenant sets the caller's own `profiles.school_code` to an
  existing tenant's code (validated against the tenant directory). -/
  | joinTenant (u : UserId) (code : String) (now : Time)
  | insertScholarship (uid : Option UserId) (rowId : Nat)
      (d : ScholarshipData) (now : Time)
  | updateScholarship (uid : Option UserId) (targetId : Nat)
      (d : ScholarshipData) (now : Time)
  | deleteScholarship (uid : Option UserId) (targetId : Nat)
  | insertFee (uid : Option UserId) (rowId : Nat) (d : FeeData) (now : Time)
  | updateFee (uid : Option UserId) (targetId : Nat) (d : FeeData)
      (now : Time)
  | deleteFee (uid : Option UserId) (targetId : Nat)
  | insertNotice (uid : Option UserId) (rowId : Nat) (d : NoticeData)
      (now : Time)
  | updateNotice (uid : Option UserId) (targetId : Nat) (d : NoticeData)
      (now : Time)
  | deleteNotice (uid : Option UserId) (targetId : Nat)

/-- Transition function: run one exposed operation against the database. -/
def step (op : Op) (db : DB) : DB :=
  match op with
  | Op.signup u pid rid fullName r now =>
    if hasProfile db u then db
    else
      { db with
          profiles := ⟨pid, u, fullName, none, now, now⟩ :: db.profiles,
          user_roles := ⟨rid, u, r⟩ :: db.user_roles }
  | Op.createTenant u sid name rawCode now =>
    match createSchool db (some u) sid name rawCode now with
    | Except.ok db2 => db2
    | Except.error _ => db
  | Op.joinTenant u code now =>
    if db.schools.any (fun s => s.school_code == code) then
      updateOwnProfileCode db u code now
    else db
  | Op.insertScholarship uid rowId d now =>
    let row := newScholarshipRow rowId d now
    if allowInsert scholarshipsPolicies db uid row then
      { db with scholarships := row :: db.scholarships }
    else db
  | Op.updateScholarship uid targetId d now =>
    { db with scholarships := db.scholarships.map (fun r =>
        if r.id == targetId && allowUpdate scholarshipsPolicies db uid r
            (applyScholarshipData d r now)
        then applyScholarshipData d r now else r) }
  | Op.deleteScholarship uid targetId =>
    { db with scholarships := db.scholarships.filter (fun r =>
        !(r.id == targetId && allowDelete scholarshipsPolicies db uid r)) }
  | Op.insertFee uid rowId d now =>
    let row := newFeeRow rowId d now
    if allowInsert feesPolicies db uid row then
      { db with fees := row :: db.fees }
    else db
  | Op.updateFee uid targetId d now =>
    { db with fees := db.fees.map (fun r =>
        if r.id == targetId && allowUpdate feesPolicies db uid r
            (applyFeeData d r now)
        then applyFeeData d r now else r) }
  | Op.deleteFee uid targetId =>
    { db with fees := db.fees.filter (fun r =>
        !(r.id == targetId && allowDelete feesPolicies db uid r)) }
  | Op.insertNotice uid rowId d now =>
    let row := newNoticeRow rowId d now
    if allowInsert noticesPolicies db uid row then
      { db with notices := row :: db.notices }
    else db
  | Op.updateNotice uid targetId d now =>
    { db with notices := db.notices.map (fun r =>
        if r.id == targetId && allowUpdate noticesPolicies db uid r
            (applyNoticeData d r now)
        then applyNoticeData d r now else r) }
  | Op.deleteNotice uid targetId =>
    { db with notices := db.notices.filter (fun r =>
        !(r.id == targetId && allowDelete noticesPolicies db uid r)) }

/-- Run a sequence of exposed operations. -/
def applyOps (ops : List Op) (db : DB) : DB :=
  ops.foldl (fun d op => step op d) db

/-- The `now()` instant an operation runs at (`none` for deletes, which
record no timestamp). -/
def opNow (op : Op) : Option Time :=
  match op with
  | Op.signup _ _ _ _ _ n => some n
  | Op.createTenant _ _ _ _ n => some n
  | Op.joinTenant _ _ n => some n
  | Op.insertScholarship _ _ _ n => some n
  | Op.updateScholarship _ _ _ n => some n
  | Op.deleteScholarship _ _ => none
  | Op.insertFee _ _ _ n => some n
  | Op.updateFee _ _ _ n => some n
  | Op.deleteFee _ _ => none
  | Op.insertNotice _ _ _ n => some n
  | Op.updateNotice _ _ _ n => some n
  | Op.deleteNotice _ _ => none

/-- The clock after an operation: its `now()` if it has one, else the
previous bound. -/
def effNow (op : Op) (t : Time) : Time :=
  match opNow op with
  | some n => n
  | none => t

/-- Real time does not run backwards: each operation's `now()` is at least
the previous operation's. -/
def ChronoFrom (t : Time) : List Op → Prop
  | [] => True
  | op :: rest => t ≤ effNow op t ∧ ChronoFrom (effNow op t) rest

/-- All timestamp pairs in the database are consistent and bounded by the
clock: `created_at ≤ updated_at ≤ t` on every row of the five stamped
tables. -/
def TimesLe (t : Time) (db : DB) : Prop :=
  (∀ x ∈ db.schools, x.created_at ≤ x.updated_at ∧ x.updated_at ≤ t) ∧
  (∀ x ∈ db.profiles, x.created_at ≤ x.updated_at ∧ x.updated_at ≤ t) ∧
  (∀ x ∈ db.scholarships, x.created_at ≤ x.updated_at ∧ x.updated_at ≤ t) ∧
  (∀ x ∈ db.fees, x.created_at ≤ x.updated_at ∧ x.updated_at ≤ t) ∧
  (∀ x ∈ db.notices, x.created_at ≤ x.updated_at ∧ x.updated_at ≤ t)

/-- `updated_at ≥ created_at` on every row of every stamped table. -/
def CreatedLeUpdated (db : DB) : Prop :=
  (∀ x ∈ db.schools, x.created_at ≤ x.updated_at) ∧
  (∀ x ∈ db.profiles, x.created_at ≤ x.updated_at) ∧
  (∀ x ∈ db.scholarships, x.created_at ≤ x.updated_at) ∧
  (∀ x ∈ db.fees, x.created_at ≤ x.updated_at) ∧
  (∀ x ∈ db.notices, x.created_at ≤ x.updated_at)

/-- How a table's rows evolve across one operation run at instant `n`: each
resulting row is an untouched old row, a freshly inserted row stamped
`created_at = updated_at = n`, or an updated old row keeping its
`created_at` with `updated_at` refreshed to `n`. -/
def Tracks {P : Type} (c u : P → Time) (n : Time) (old new : List P) :
    Prop :=
  ∀ x ∈ new, x ∈ old ∨ (c x = n ∧ u x = n) ∨
    (∃ y, y ∈ old ∧ c x = c y ∧ u x = n)

/-! ## Concrete fixtures used by witnesses -/

/-- A student profile joined to tenant `AAAA`. -/
def sampleProfile : ProfileRow := ⟨10, 1, "Student One", some "AAAA", 0, 0⟩

/-- A school with code `BBBB` owned by admin user 2. -/
def sampleSchoolB : SchoolRow := ⟨20, "Other School", "BBBB", 2, 0, 0⟩

/-- A school with code `AAAA` owned by admin user 3. -/
def sampleSchoolA : SchoolRow := ⟨21, "Own School", "AAAA", 3, 0, 0⟩

/-- A database with two tenants, a student (user 1) in `AAAA`, and the two
admins (users 2 and 3). -/
def sampleDB : DB :=
  ⟨[sampleSchoolB, sampleSchoolA],
   [sampleProfile],
   [⟨30, 1, AppRole.student⟩, ⟨31, 2, AppRole.admin⟩, ⟨32, 3, AppRole.admin⟩],
   [], [], []⟩

/-- A scholarship row of tenant `BBBB`. -/
def sampleScholarshipB : ScholarshipRow :=
  ⟨40, "BBBB", "Grant", none, none, none, none, 0, 0⟩

/-- A fee row of tenant `BBBB`. -/
def sampleFeeB : FeeRow := ⟨41, "BBBB", "Tuition", none, 100, none, none, 0, 0⟩

/-- A notice row of tenant `BBBB`. -/
def sampleNoticeB : NoticeRow := ⟨42, "BBBB", "Exam", "soon", "high", 0, 0⟩

/-- A fee row of tenant `AAAA`. -/
def sampleFeeA : FeeRow := ⟨43, "AAAA", "Lab fee", none, 50, none, none, 0, 0⟩

/-! ## Helper lemmas -/

/-- The recorded admin of a school passes `is_school_admin` for its code. -/
lemma is_school_admin_self (db : DB) (s : SchoolRow) (hs : s ∈ db.schools) :
    is_school_admin db (some s.admin_id) s.school_code = true := by
  simp [is_school_admin]
  exact ⟨s, hs, rfl, rfl⟩

/-- In a well-formed database (unique school codes), `is_school_admin`
recognizes exactly the recorded admin of the school bearing that code. -/
lemma is_school_admin_iff (db : DB) (hwf : WellFormed db) (s : SchoolRow)
    (hs : s ∈ db.schools) (v : Option UserId) :
    is_school_admin db v s.school_code = true ↔ v = some s.admin_id := by
  constructor
  · intro h
    simp [is_school_admin] at h
    obtain ⟨x, hx, h1, h2⟩ := h
    by_cases hxs : x = s
    · subst hxs; exact h1.symm
    · exact absurd h2 (hwf.1.forall (fun _ _ hab => hab.symm) hx hs hxs)
  · intro h
    subst h
    exact is_school_admin_self db s hs

/-- Anyone other than the recorded admin fails `is_school_admin` for the
school's code (well-formed database). -/
lemma is_school_admin_ne (db : DB) (hwf : WellFormed db) (s : SchoolRow)
    (hs : s ∈ db.schools) (v : Option UserId) (hv : v ≠ some s.admin_id) :
    is_school_admin db v s.school_code = false := by
  rw [← Bool.not_eq_true]
  intro h
  exact hv ((is_school_admin_iff db hwf s hs v).mp h)

/-- A map whose function either fixes a row or refreshes its `updated_at`
to `n` while keeping `created_at` satisfies `Tracks`. -/
lemma tracks_map {P : Type} (c u : P → Time) (n : Time) (l : List P)
    (f : P → P)
    (hf : ∀ y, f y = y ∨ (c (f y) = c y ∧ u (f y) = n)) :
    Tracks c u n l (l.map f) := by
  intro x hx
  simp only [List.mem_map] at hx
  obtain ⟨y, hy, rfl⟩ := hx
  rcases hf y with h | ⟨h1, h2⟩
  · left; rw [h]; exact hy
  · right; right; exact ⟨y, hy, h1, h2⟩

/-- Transport the `created_at ≤ updated_at ≤ clock` bound across a
`Tracks` evolution whose instant is at least the old clock. -/
lemma tracks_bound {P : Type} (c u : P → Time) (t n : Time) (h : t ≤ n)
    (old new : List P) (hT : Tracks c u n old new)
    (hold : ∀ y ∈ old, c y ≤ u y ∧ u y ≤ t) :
    ∀ x ∈ new, c x ≤ u x ∧ u x ≤ n := by
  intro x hx
  rcases hT x hx with hm | ⟨h1, h2⟩ | ⟨y, hy, h1, h2⟩
  · obtain ⟨ha, hb⟩ := hold x hm
    exact ⟨ha, le_trans hb h⟩
  · rw [h1, h2]
    exact ⟨le_refl n, le_refl n⟩
  · obtain ⟨ha, hb⟩ := hold y hy
    rw [h1, h2]
    exact ⟨le_trans (le_trans ha hb) h, le_refl n⟩

/-- The timestamp bound is monotone in the clock. -/
lemma bound_mono {P : Type} (c u : P → Time) (t n : Time) (h : t ≤ n)
    (l : List P) (hold : ∀ y ∈ l, c y ≤ u y ∧ u y ≤ t) :
    ∀ x ∈ l, c x ≤ u x ∧ u x ≤ n := by
  intro x hx
  obtain ⟨ha, hb⟩ := hold x hx
  exact ⟨ha, le_trans hb h⟩

/-- Prepending a freshly stamped row preserves the timestamp bound. -/
lemma bound_cons {P : Type} (c u : P → Time) (t n : Time) (h : t ≤ n)
    (a : P) (hc : c a = n) (hu : u a = n) (l : List P)
    (hold : ∀ y ∈ l, c y ≤ u y ∧ u y ≤ t) :
    ∀ x ∈ a :: l, c x ≤ u x ∧ u x ≤ n := by
  intro x hx
  rcases List.mem_cons.mp hx with rfl | hx
  · rw [hc, hu]
    exact ⟨le_refl n, le_refl n⟩
  · exact bound_mono c u t n h l hold x hx

/-- Filtering preserves the timestamp bound. -/
lemma bound_filter {P : Type} (c u : P → Time) (t n : Time) (h : t ≤ n)
    (l : List P) (q : P → Bool)
    (hold : ∀ y ∈ l, c y ≤ u y ∧ u y ≤ t) :
    ∀ x ∈ l.filter q, c x ≤ u x ∧ u x ≤ n :=
  fun x hx => bound_mono c u t n h l hold x (List.mem_filter.mp hx).1

/-- Shape of `createSchool`'s result: an RLS rejection, a unique-constraint
violation, or success with the new school prepended and the admin's profile
stamped. -/
lemma createSchool_shape (db : DB) (u : UserId) (sid : Nat)
    (name raw : String) (now : Time) :
    createSchool db (some u) sid name raw now =
      Except.error rlsViolationSchools ∨
    createSchool db (some u) sid name raw now =
      Except.error uniqueViolationSchoolCode ∨
    createSchool db (some u) sid name raw now =
      Except.ok (updateOwnProfileCode
        { db with schools :=
            SchoolRow.mk sid name (normalizeCode raw) u now now
              :: db.schools }
        u (normalizeCode raw) now) := by
  by_cases h1 : allowInsert schoolsPolicies db (some u)
      (SchoolRow.mk sid name (normalizeCode raw) u now now) = true
  · by_cases h2 : db.schools.any
        (fun s => s.school_code == normalizeCode raw) = true
    · right; left
      simp [createSchool, h1, h2]
    · right; right
      simp [createSchool, h1, h2]
  · left
    simp [createSchool, h1]

/-- The profile-stamping update evolves `profiles` as `Tracks` describes. -/
lemma updateOwnProfileCode_tracks (db : DB) (u : UserId) (code : String)
    (n : Time) :
    Tracks (fun p : ProfileRow => p.created_at) (fun p => p.updated_at) n
      db.profiles (updateOwnProfileCode db u code n).profiles := by
  apply tracks_map
  intro y
  by_cases h : (y.user_id == u && allowUpdate profilesPolicies db (some u) y
      { y with school_code := some code, updated_at := n }) = true
  · rw [if_pos h]
    right
    exact ⟨rfl, rfl⟩
  · rw [if_neg h]
    left
    rfl

/-- One exposed operation preserves timestamp consistency, advancing the
clock bound to the operation's `now()`. -/
lemma step_times (op : Op) (db : DB) (t : Time) (ht : TimesLe t db)
    (hn : t ≤ effNow op t) : TimesLe (effNow op t) (step op db) := by
  obtain ⟨hts, htp, htsc, htf, htn⟩ := ht
  cases op with
  | signup u pid rid fullName r n =>
    simp only [effNow, opNow] at hn ⊢
    by_cases hp : hasProfile db u = true
    · simp only [step, hp, if_pos]
      exact ⟨bound_mono _ _ t n hn _ hts, bound_mono _ _ t n hn _ htp,
        bound_mono _ _ t n hn _ htsc, bound_mono _ _ t n hn _ htf,
        bound_mono _ _ t n hn _ htn⟩
    · simp only [step, hp, if_neg, Bool.false_eq_true, not_false_iff]
      exact ⟨bound_mono _ _ t n hn _ hts,
        bound_cons _ _ t n hn _ rfl rfl _ htp,
        bound_mono _ _ t n hn _ htsc, bound_mono _ _ t n hn _ htf,
        bound_mono _ _ t n hn _ htn⟩
  | createTenant u sid name raw n =>
    simp only [effNow, opNow] at hn ⊢
    rcases createSchool_shape db u sid name raw n with h | h | h <;>
      simp only [step, h]
    · exact ⟨bound_mono _ _ t n hn _ hts, bound_mono _ _ t n hn _ htp,
        bound_mono _ _ t n hn _ htsc, bound_mono _ _ t n hn _ htf,
        bound_mono _ _ t n hn _ htn⟩
    · exact ⟨bound_mono _ _ t n hn _ hts, bound_mono _ _ t n hn _ htp,
        bound_mono _ _ t n hn _ htsc, bound_mono _ _ t n hn _ htf,
        bound_mono _ _ t n hn _ htn⟩
    · refine ⟨?_, ?_, ?_, ?_, ?_⟩
      · exact bound_cons _ _ t n hn _ rfl rfl _ hts
      · exact tracks_bound _ _ t n hn _ _
          (updateOwnProfileCode_tracks _ u (normalizeCode raw) n) htp
      · exact bound_mono _ _ t n hn _ htsc
      · exact bound_mono _ _ t n hn _ htf
      · exact bound_mono _ _ t n hn _ htn
  | joinTenant u code n =>
    simp only [effNow, opNow] at hn ⊢
    by_cases hs : db.schools.any (fun s => s.school_code == code) = true
    · simp only [step, hs, if_pos]
      refine ⟨?_, ?_, ?_, ?_, ?_⟩
      · exact bound_mono _ _ t n hn _ hts
      · exact tracks_bound _ _ t n hn _ _
          (updateOwnProfileCode_tracks db u code n) htp
      · exact bound_mono _ _ t n hn _ htsc
      · exact bound_mono _ _ t n hn _ htf
      · exact bound_mono _ _ t n hn _ htn
    · simp only [step, hs, if_neg, Bool.false_eq_true, not_false_iff]
      exact ⟨bound_mono _ _ t n hn _ hts, bound_mono _ _ t n hn _ htp,
        bound_mono _ _ t n hn _ htsc, bound_mono _ _ t n hn _ htf,
        bound_mono _ _ t n hn _ htn⟩
  | insertScholarship uid rowId d n =>
    simp only [effNow, opNow] at hn ⊢
    by_cases ha : allowInsert scholarshipsPolicies db uid
        (newScholarshipRow rowId d n) = true
    · simp only [step, ha, if_pos]
      exact ⟨bound_mono _ _ t n hn _ hts, bound_mono _ _ t n hn _ htp,
        bound_cons _ _ t n hn _ rfl rfl _ htsc,
        bound_mono _ _ t n hn _ htf, bound_mono _ _ t n hn _ htn⟩
    · simp only [step, ha, if_neg, Bool.false_eq_true, not_false_iff]
      exact ⟨bound_mono _ _ t n hn _ hts, bound_mono _ _ t n hn _ htp,
        bound_mono _ _ t n hn _ htsc, bound_mono _ _ t n hn _ htf,
        bound_mono _ _ t n hn _ htn⟩
  | updateScholarship uid targetId d n =>
    simp only [effNow, opNow] at hn ⊢
    refine ⟨bound_mono _ _ t n hn _ hts, bound_mono _ _ t n hn _ htp,
      ?_, bound_mono _ _ t n hn _ htf, bound_mono _ _ t n hn _ htn⟩
    refine tracks_bound _ _ t n hn _ _ (tracks_map _ _ n _ _ ?_) htsc
    intro y
    by_cases hcond : (y.id == targetId &&
        allowUpdate scholarshipsPolicies db uid y
          (applyScholarshipData d y n)) = true
    · rw [if_pos hcond]
      right
      exact ⟨rfl, rfl⟩
    · rw [if_neg hcond]
      left
      rfl
  | deleteScholarship uid targetId =>
    simp only [effNow, opNow]
    exact ⟨hts, htp, bound_filter _ _ t t (le_refl t) _ _ htsc, htf, htn⟩
  | insertFee uid rowId d n =>
    simp only [effNow, opNow] at hn ⊢
    by_cases ha : allowInsert feesPolicies db uid (newFeeRow rowId d n) = true
    · simp only [step, ha, if_pos]
      exact ⟨bound_mono _ _ t n hn _ hts, bound_mono _ _ t n hn _ htp,
        bound_mono _ _ t n hn _ htsc,
        bound_cons _ _ t n hn _ rfl rfl _ htf,
        bound_mono _ _ t n hn _ htn⟩
    · simp only [step, ha, if_neg, Bool.false_eq_true, not_false_iff]
      exact ⟨bound_mono _ _ t n hn _ hts, bound_mono _ _ t n hn _ htp,
        bound_mono _ _ t n hn _ htsc, bound_mono _ _ t n hn _ htf,
        bound_mono _ _ t n hn _ htn⟩
  | updateFee uid targetId d n =>
    simp only [effNow, opNow] at hn ⊢
    refine ⟨bound_mono _ _ t n hn _ hts, bound_mono _ _ t n hn _ htp,
      bound_mono _ _ t n hn _ htsc, ?_, bound_mono _ _ t n hn _ htn⟩
    refine tracks_bound _ _ t n hn _ _ (tracks_map _ _ n _ _ ?_) htf
    intro y
    by_cases hcond : (y.id == targetId &&
        allowUpdate feesPolicies db uid y (applyFeeData d y n)) = true
    · rw [if_pos hcond]
      right
      exact ⟨rfl, rfl⟩
    · rw [if_neg hcond]
      left
      rfl
  | deleteFee uid targetId =>
    simp only [effNow, opNow]
    exact ⟨hts, htp, htsc, bound_filter _ _ t t (le_refl t) _ _ htf, htn⟩
  | insertNotice uid rowId d n =>
    simp only [effNow, opNow] at hn ⊢
    by_cases ha : allowInsert noticesPolicies db uid
        (newNoticeRow rowId d n) = true
    · simp only [step, ha, if_pos]
      exact ⟨bound_mono _ _ t n hn _ hts, bound_mono _ _ t n hn _ htp,
        bound_mono _ _ t n hn _ htsc, bound_mono _ _ t n hn _ htf,
        bound_cons _ _ t n hn _ rfl rfl _ htn⟩
    · simp only [step, ha, if_neg, Bool.false_eq_true, not_false_iff]
      exact ⟨bound_mono _ _ t n hn _ hts, bound_mono _ _ t n hn _ htp,
        bound_mono _ _ t n hn _ htsc, bound_mono _ _ t n hn _ htf,
        bound_mono _ _ t n hn _ htn⟩
  | updateNotice uid targetId d n =>
    simp only [effNow, opNow] at hn ⊢
    refine ⟨bound_mono _ _ t n hn _ hts, bound_mono _ _ t n hn _ htp,
      bound_mono _ _ t n hn _ htsc, bound_mono _ _ t n hn _ htf, ?_⟩
    refine tracks_bound _ _ t n hn _ _ (tracks_map _ _ n _ _ ?_) htn
    intro y
    by_cases hcond : (y.id == targetId &&
        allowUpdate noticesPolicies db uid y (applyNoticeData d y n)) = true
    · rw [if_pos hcond]
      right
      exact ⟨rfl, rfl⟩
    · rw [if_neg hcond]
      left
      rfl
  | deleteNotice uid targetId =>
    simp only [effNow, opNow]
    exact ⟨hts, htp, htsc, htf, bound_filter _ _ t t (le_refl t) _ _ htn⟩

/-- The timestamp bound implies the plain `created_at ≤ updated_at`
invariant. -/
lemma createdLe_of_timesLe (t : Time) (db : DB) (ht : TimesLe t db) :
    CreatedLeUpdated db :=
  ⟨fun x hx => (ht.1 x hx).1, fun x hx => (ht.2.1 x hx).1,
   fun x hx => (ht.2.2.1 x hx).1, fun x hx => (ht.2.2.2.1 x hx).1,
   fun x hx => (ht.2.2.2.2 x hx).1⟩

/-- Timestamp consistency holds after any chronological run of exposed
operations. -/
lemma applyOps_createdLe (ops : List Op) (t : Time) (db : DB)
    (ht : TimesLe t db) (hc : ChronoFrom t ops) :
    CreatedLeUpdated (applyOps ops db) := by
  induction ops generalizing t db with
  | nil => exact createdLe_of_timesLe t db ht
  | cons op rest ih =>
    obtain ⟨h1, h2⟩ := hc
    exact ih (effNow op t) (step op db) (step_times op db t ht h1) h2

/-- `find?` on a per-user profile predicate commutes with a map that
preserves `user_id`. -/
lemma find?_map_userid (f : ProfileRow → ProfileRow)
    (hf : ∀ p, (f p).user_id = p.user_id) (l : List ProfileRow)
    (u : UserId) :
    (l.map f).find? (fun p => some p.user_id == some u) =
      (l.find? (fun p => some p.user_id == some u)).map f := by
  induction l with
  | nil => rfl
  | cons a tl ih =>
    rw [List.map_cons, List.find?_cons, List.find?_cons]
    have hpred : (some (f a).user_id == some u) =
        (some a.user_id == some u) := by
      rw [hf]
    rw [hpred]
    cases hpa : (some a.user_id == some u) with
    | true =>
      simp only [Bool.cond_true, Option.map_some']
    | false =>
      simp only [Bool.cond_false]
      exact ih

/-- Stamping a profile's school code never turns a non-null
`profiles.school_code` back into null. -/
lemma updateOwnProfileCode_get (db : DB) (v : UserId) (code : String)
    (n : Time) (u : UserId)
    (h : (get_user_school_code db (some u)).isSome = true) :
    (get_user_school_code (updateOwnProfileCode db v code n)
      (some u)).isSome = true := by
  unfold get_user_school_code updateOwnProfileCode
  unfold get_user_school_code at h
  simp only
  rw [find?_map_userid]
  · cases hfind : db.profiles.find? (fun p => some p.user_id == some u) with
    | none =>
      rw [hfind] at h
      simp at h
    | some p =>
      rw [hfind] at h
      have h2 : p.school_code.isSome = true := h
      by_cases hcond : p.user_id = v ∧ allowUpdate profilesPolicies db
          (some v) p { p with school_code := some code, updated_at := n }
            = true
      · obtain ⟨hu, hb⟩ := hcond
        rw [hu] at hb
        simp [hu, hb]
      · simp only [Option.map_some']
        have hfalse : (p.user_id == v && allowUpdate profilesPolicies db
            (some v) p { p with school_code := some code, updated_at := n })
              = false := by
          rw [Bool.and_eq_false_iff]
          by_cases hu : p.user_id = v
          · right
            rw [← Bool.not_eq_true]
            intro hb
            exact hcond ⟨hu, hb⟩
          · left
            rw [← Bool.not_eq_true, beq_iff_eq]
            exact hu
        simp [hfalse]
        exact h2
  · intro p
    by_cases hcond : (p.user_id == v && allowUpdate profilesPolicies db
        (some v) p { p with school_code := some code, updated_at := n })
          = true
    · rw [if_pos hcond]
    · rw [if_neg hcond]

/-- A map preserving `user_id` does not change a per-user `any` check. -/
lemma any_userid_map (l : List ProfileRow) (f : ProfileRow → ProfileRow)
    (hf : ∀ p, (f p).user_id = p.user_id) (u : UserId) :
    (l.map f).any (fun p => p.user_id == u) =
      l.any (fun p => p.user_id == u) := by
  induction l with
  | nil => rfl
  | cons a tl ih => simp [ih, hf]

/-- A user with a non-null tenant code has a profile row. -/
lemma get_code_hasProfile (db : DB) (u : UserId)
    (h : (get_user_school_code db (some u)).isSome = true) :
    hasProfile db u = true := by
  unfold get_user_school_code at h
  cases hfind : db.profiles.find? (fun p => some p.user_id == some u) with
  | none =>
    rw [hfind] at h
    simp at h
  | some p =>
    have hmem := List.mem_of_find?_eq_some hfind
    have hpred := List.find?_some hfind
    unfold hasProfile
    rw [List.any_eq_true]
    refine ⟨p, hmem, ?_⟩
    simpa using hpred

/-- One exposed operation never turns a non-null tenant code back into
null. -/
lemma step_member (op : Op) (db : DB) (u : UserId)
    (h : (get_user_school_code db (some u)).isSome = true) :
    (get_user_school_code (step op db) (some u)).isSome = true := by
  cases op with
  | signup v pid rid fullName r n =>
    simp only [step]
    by_cases hp : hasProfile db v = true
    · rw [if_pos hp]
      exact h
    · rw [if_neg hp]
      have hv : v ≠ u := by
        intro hvu
        exact hp (hvu ▸ get_code_hasProfile db u h)
      unfold get_user_school_code
      rw [List.find?_cons]
      have hhead : (some (ProfileRow.mk pid v fullName none n n).user_id ==
          some u) = false := by
        simp [hv]
      rw [hhead]
      exact h
  | createTenant v sid name raw n =>
    simp only [step]
    rcases createSchool_shape db v sid name raw n with hc | hc | hc <;>
      rw [hc]
    · exact h
    · exact h
    · exact updateOwnProfileCode_get _ v (normalizeCode raw) n u h
  | joinTenant v code n =>
    simp only [step]
    by_cases hs : db.schools.any (fun s => s.school_code == code) = true
    · rw [if_pos hs]
      exact updateOwnProfileCode_get db v code n u h
    · rw [if_neg hs]
      exact h
  | insertScholarship uid rowId d n =>
    simp only [step]
    by_cases ha : allowInsert scholarshipsPolicies db uid
        (newScholarshipRow rowId d n) = true
    · rw [if_pos ha]; exact h
    · rw [if_neg ha]; exact h
  | updateScholarship uid targetId d n => exact h
  | deleteScholarship uid targetId => exact h
  | insertFee uid rowId d n =>
    simp only [step]
    by_cases ha : allowInsert feesPolicies db uid (newFeeRow rowId d n) = true
    · rw [if_pos ha]; exact h
    · rw [if_neg ha]; exact h
  | updateFee uid targetId d n => exact h
  | deleteFee uid targetId => exact h
  | insertNotice uid rowId d n =>
    simp only [step]
    by_cases ha : allowInsert noticesPolicies db uid
        (newNoticeRow rowId d n) = true
    · rw [if_pos ha]; exact h
    · rw [if_neg ha]; exact h
  | updateNotice uid targetId d n => exact h
  | deleteNotice uid targetId => exact h

/-- No exposed operation ever removes a role-assignment row. -/
lemma step_roles_mono (op : Op) (db : DB) (r : UserRoleRow)
    (hr : r ∈ db.user_roles) : r ∈ (step op db).user_roles := by
  cases op with
  | signup v pid rid fullName rr n =>
    simp only [step]
    by_cases hp : hasProfile db v = true
    · rw [if_pos hp]; exact hr
    · rw [if_neg hp]
      exact List.mem_cons_of_mem _ hr
  | createTenant v sid name raw n =>
    simp only [step]
    rcases createSchool_shape db v sid name raw n with hc | hc | hc <;>
      rw [hc] <;> exact hr
  | joinTenant v code n =>
    simp only [step]
    by_cases hs : db.schools.any (fun s => s.school_code == code) = true
    · rw [if_pos hs]; exact hr
    · rw [if_neg hs]; exact hr
  | insertScholarship uid rowId d n =>
    simp only [step]
    by_cases ha : allowInsert scholarshipsPolicies db uid
        (newScholarshipRow rowId d n) = true
    · rw [if_pos ha]; exact hr
    · rw [if_neg ha]; exact hr
  | updateScholarship uid targetId d n => exact hr
  | deleteScholarship uid targetId => exact hr
  | insertFee uid rowId d n =>
    simp only [step]
    by_cases ha : allowInsert feesPolicies db uid (newFeeRow rowId d n) = true
    · rw [if_pos ha]; exact hr
    · rw [if_neg ha]; exact hr
  | updateFee uid targetId d n => exact hr
  | deleteFee uid targetId => exact hr
  | insertNotice uid rowId d n =>
    simp only [step]
    by_cases ha : allowInsert noticesPolicies db uid
        (newNoticeRow rowId d n) = true
    · rw [if_pos ha]; exact hr
    · rw [if_neg ha]; exact hr
  | updateNotice uid targetId d n => exact hr
  | deleteNotice uid targetId => exact hr

/-- Stamping a profile's school code preserves profile existence. -/
lemma hasProfile_updateOwnProfileCode (db : DB) (v : UserId) (code : String)
    (n : Time) (u : UserId) :
    hasProfile (updateOwnProfileCode db v code n) u = hasProfile db u := by
  unfold hasProfile updateOwnProfileCode
  simp only
  rw [any_userid_map]
  intro p
  by_cases hcond : (p.user_id == v && allowUpdate profilesPolicies db
      (some v) p { p with school_code := some code, updated_at := n })
        = true
  · rw [if_pos hcond]
  · rw [if_neg hcond]

/-- One exposed operation keeps a provisioned user's profile present and
their role-assignment rows untouched. -/
lemma step_role_state (op : Op) (db : DB) (u : UserId)
    (hp : hasProfile db u = true) :
    hasProfile (step op db) u = true ∧
    (step op db).user_roles.filter (fun row => row.user_id == u) =
      db.user_roles.filter (fun row => row.user_id == u) := by
  cases op with
  | signup v pid rid fullName r n =>
    simp only [step]
    by_cases hpv : hasProfile db v = true
    · rw [if_pos hpv]
      exact ⟨hp, rfl⟩
    · rw [if_neg hpv]
      have hv : v ≠ u := fun hvu => hpv (hvu ▸ hp)
      constructor
      · unfold hasProfile at hp ⊢
        simp [hp]
      · rw [List.filter_cons]
        have hhead : ((UserRoleRow.mk rid v r).user_id == u) = false := by
          simp [hv]
        rw [hhead]
        simp
  | createTenant v sid name raw n =>
    simp only [step]
    rcases createSchool_shape db v sid name raw n with hc | hc | hc <;>
      rw [hc]
    · exact ⟨hp, rfl⟩
    · exact ⟨hp, rfl⟩
    · refine ⟨?_, rfl⟩
      rw [hasProfile_updateOwnProfileCode]
      exact hp
  | joinTenant v code n =>
    simp only [step]
    by_cases hs : db.schools.any (fun s => s.school_code == code) = true
    · rw [if_pos hs]
      refine ⟨?_, rfl⟩
      rw [hasProfile_updateOwnProfileCode]
      exact hp
    · rw [if_neg hs]
      exact ⟨hp, rfl⟩
  | insertScholarship uid rowId d n =>
    simp only [step]
    by_cases ha : allowInsert scholarshipsPolicies db uid
        (newScholarshipRow rowId d n) = true
    · rw [if_pos ha]; exact ⟨hp, rfl⟩
    · rw [if_neg ha]; exact ⟨hp, rfl⟩
  | updateScholarship uid targetId d n => exact ⟨hp, rfl⟩
  | deleteScholarship uid targetId => exact ⟨hp, rfl⟩
  | insertFee uid rowId d n =>
    simp only [step]
    by_cases ha : allowInsert feesPolicies db uid (newFeeRow rowId d n) = true
    · rw [if_pos ha]; exact ⟨hp, rfl⟩
    · rw [if_neg ha]; exact ⟨hp, rfl⟩
  | updateFee uid targetId d n => exact ⟨hp, rfl⟩
  | deleteFee uid targetId => exact ⟨hp, rfl⟩
  | insertNotice uid rowId d n =>
    simp only [step]
    by_cases ha : allowInsert noticesPolicies db uid
        (newNoticeRow rowId d n) = true
    · rw [if_pos ha]; exact ⟨hp, rfl⟩
    · rw [if_neg ha]; exact ⟨hp, rfl⟩
  | updateNotice uid targetId d n => exact ⟨hp, rfl⟩
  | deleteNotice uid targetId => exact ⟨hp, rfl⟩

/-- Any run of exposed operations keeps a provisioned user's profile and
role rows intact. -/
lemma applyOps_role_state (ops : List Op) (db : DB) (u : UserId)
    (hp : hasProfile db u = true) :
    hasProfile (applyOps ops db) u = true ∧
    (applyOps ops db).user_roles.filter (fun row => row.user_id == u) =
      db.user_roles.filter (fun row => row.user_id == u) := by
  induction ops generalizing db with
  | nil => exact ⟨hp, rfl⟩
  | cons op rest ih =>
    obtain ⟨h1, h2⟩ := step_role_state op db u hp
    obtain ⟨h3, h4⟩ := ih (step op db) h1
    exact ⟨h3, h4.trans h2⟩

/-- A creation attempt against a taken (normalized) code fails with the
unique-constraint error, provided the caller got past the RLS insert
check. -/
lemma createSchool_duplicate (db : DB) (u : UserId) (sid : Nat)
    (name rawCode : String) (now : Time)
    (hallow : allowInsert schoolsPolicies db (some u)
      (SchoolRow.mk sid name (normalizeCode rawCode) u now now) = true)
    (hdup : db.schools.any
      (fun s => s.school_code == normalizeCode rawCode) = true) :
    createSchool db (some u) sid name rawCode now =
      Except.error uniqueViolationSchoolCode := by
  simp [createSchool, hallow, hdup]

/-! ## Claims -/

/-- C1.  Tenant isolation on reads: a user whose profile tenant code is `c1`
cannot select any scholarship, fee, or notice row of a different tenant
`c2` unless they administer the school with code `c2`; and in general a
select on a tenant-scoped table only shows rows whose `school_code` matches
the caller's profile code or a school the caller administers. -/
theorem tenant_isolation_on_reads (db : DB) (u : UserId) (c1 c2 : String)
    (hmem : get_user_school_code db (some u) = some c1)
    (hne : c2 ≠ c1)
    (hnadmin : is_school_admin db (some u) c2 = false) :
    (∀ r : ScholarshipRow, r.school_code = c2 →
        allowSelect scholarshipsPolicies db (some u) r = false) ∧
    (∀ r : FeeRow, r.school_code = c2 →
        allowSelect feesPolicies db (some u) r = false) ∧
    (∀ r : NoticeRow, r.school_code = c2 →
        allowSelect noticesPolicies db (some u) r = false) ∧
    (∀ r : ScholarshipRow, allowSelect scholarshipsPolicies db (some u) r = true →
        get_user_school_code db (some u) = some r.school_code ∨
          is_school_admin db (some u) r.school_code = true) ∧
    (∀ r : FeeRow, allowSelect feesPolicies db (some u) r = true →
        get_user_school_code db (some u) = some r.school_code ∨
          is_school_admin db (some u) r.school_code = true) ∧
    (∀ r : NoticeRow, allowSelect noticesPolicies db (some u) r = true →
        get_user_school_code db (some u) = some r.school_code ∨
          is_school_admin db (some u) r.school_code = true) := by
  refine ⟨?_, ?_, ?_, ?_, ?_, ?_⟩
  · intro r hr
    simp [allowSelect, scholarshipsPolicies, evalUsing, hr, hmem, hnadmin]
    exact fun h => absurd h.symm hne
  · intro r hr
    simp [allowSelect, feesPolicies, evalUsing, hr, hmem, hnadmin]
    exact fun h => absurd h.symm hne
  · intro r hr
    simp [allowSelect, noticesPolicies, evalUsing, hr, hmem, hnadmin]
    exact fun h => absurd h.symm hne
  · intro r h
    simp [allowSelect, scholarshipsPolicies, evalUsing] at h
    rcases h with h | h
    · exact Or.inl h
    · exact Or.inr h
  · intro r h
    simp [allowSelect, feesPolicies, evalUsing] at h
    rcases h with h | h
    · exact Or.inl h
    · exact Or.inr h
  · intro r h
    simp [allowSelect, noticesPolicies, evalUsing] at h
    rcases h with h | h
    · exact Or.inl h
    · exact Or.inr h

/-- C1 witness: student 1 (tenant `AAAA`) cannot select tenant `BBBB`'s
scholarship. -/
theorem tenant_isolation_on_reads_witness :
    get_user_school_code sampleDB (some 1) = some "AAAA" ∧
    ("BBBB" : String) ≠ "AAAA" ∧
    is_school_admin sampleDB (some 1) "BBBB" = false ∧
    allowSelect scholarshipsPolicies sampleDB (some 1) sampleScholarshipB = false :=
  ⟨by decide, by decide, by decide,
    (tenant_isolation_on_reads sampleDB 1 "AAAA" "BBBB" (by decide) (by decide)
        (by decide)).1 sampleScholarshipB rfl⟩

/-- C2.  Admin supremacy: for every scholarship, fee, or notice row of
tenant `s.school_code`, the recorded admin of that school may select,
insert, update (within the tenant), and delete it, while any other identity
— authenticated or not, including a student of that very tenant — is denied
insert, update, and delete. -/
theorem admin_supremacy (db : DB) (hwf : WellFormed db) (s : SchoolRow)
    (hs : s ∈ db.schools) :
    (∀ r : ScholarshipRow, r.school_code = s.school_code →
        allowSelect scholarshipsPolicies db (some s.admin_id) r = true ∧
        allowInsert scholarshipsPolicies db (some s.admin_id) r = true ∧
        allowDelete scholarshipsPolicies db (some s.admin_id) r = true ∧
        ∀ r2 : ScholarshipRow, r2.school_code = s.school_code →
          allowUpdate scholarshipsPolicies db (some s.admin_id) r r2 = true) ∧
    (∀ r : FeeRow, r.school_code = s.school_code →
        allowSelect feesPolicies db (some s.admin_id) r = true ∧
        allowInsert feesPolicies db (some s.admin_id) r = true ∧
        allowDelete feesPolicies db (some s.admin_id) r = true ∧
        ∀ r2 : FeeRow, r2.school_code = s.school_code →
          allowUpdate feesPolicies db (some s.admin_id) r r2 = true) ∧
    (∀ r : NoticeRow, r.school_code = s.school_code →
        allowSelect noticesPolicies db (some s.admin_id) r = true ∧
        allowInsert noticesPolicies db (some s.admin_id) r = true ∧
        allowDelete noticesPolicies db (some s.admin_id) r = true ∧
        ∀ r2 : NoticeRow, r2.school_code = s.school_code →
          allowUpdate noticesPolicies db (some s.admin_id) r r2 = true) ∧
    (∀ v : Option UserId, v ≠ some s.admin_id →
      (∀ r : ScholarshipRow, r.school_code = s.school_code →
          allowInsert scholarshipsPolicies db v r = false ∧
          allowDelete scholarshipsPolicies db v r = false ∧
          ∀ r2 : ScholarshipRow,
            allowUpdate scholarshipsPolicies db v r r2 = false) ∧
      (∀ r : FeeRow, r.school_code = s.school_code →
          allowInsert feesPolicies db v r = false ∧
          allowDelete feesPolicies db v r = false ∧
          ∀ r2 : FeeRow, allowUpdate feesPolicies db v r r2 = false) ∧
      (∀ r : NoticeRow, r.school_code = s.school_code →
          allowInsert noticesPolicies db v r = false ∧
          allowDelete noticesPolicies db v r = false ∧
          ∀ r2 : NoticeRow, allowUpdate noticesPolicies db v r r2 = false)) := by
  have hself := is_school_admin_self db s hs
  refine ⟨?_, ?_, ?_, ?_⟩
  · intro r hr
    refine ⟨?_, ?_, ?_, ?_⟩
    · simp [allowSelect, scholarshipsPolicies, evalUsing, hr, hself]
    · simp [allowInsert, scholarshipsPolicies, evalCheck, evalUsing, hr, hself]
    · simp [allowDelete, scholarshipsPolicies, evalUsing, hr, hself]
    · intro r2 hr2
      simp [allowUpdate, scholarshipsPolicies, evalUsing, evalCheck, hr, hr2,
        hself]
  · intro r hr
    refine ⟨?_, ?_, ?_, ?_⟩
    · simp [allowSelect, feesPolicies, evalUsing, hr, hself]
    · simp [allowInsert, feesPolicies, evalCheck, evalUsing, hr, hself]
    · simp [allowDelete, feesPolicies, evalUsing, hr, hself]
    · intro r2 hr2
      simp [allowUpdate, feesPolicies, evalUsing, evalCheck, hr, hr2, hself]
  · intro r hr
    refine ⟨?_, ?_, ?_, ?_⟩
    · simp [allowSelect, noticesPolicies, evalUsing, hr, hself]
    · simp [allowInsert, noticesPolicies, evalCheck, evalUsing, hr, hself]
    · simp [allowDelete, noticesPolicies, evalUsing, hr, hself]
    · intro r2 hr2
      simp [allowUpdate, noticesPolicies, evalUsing, evalCheck, hr, hr2, hself]
  · intro v hv
    have hne := is_school_admin_ne db hwf s hs v hv
    refine ⟨?_, ?_, ?_⟩
    · intro r hr
      refine ⟨?_, ?_, ?_⟩
      · simp [allowInsert, scholarshipsPolicies, evalCheck, evalUsing, hr, hne]
      · simp [allowDelete, scholarshipsPolicies, evalUsing, hr, hne]
      · intro r2
        simp [allowUpdate, scholarshipsPolicies, evalUsing, evalCheck, hr, hne]
    · intro r hr
      refine ⟨?_, ?_, ?_⟩
      · simp [allowInsert, feesPolicies, evalCheck, evalUsing, hr, hne]
      · simp [allowDelete, feesPolicies, evalUsing, hr, hne]
      · intro r2
        simp [allowUpdate, feesPolicies, evalUsing, evalCheck, hr, hne]
    · intro r hr
      refine ⟨?_, ?_, ?_⟩
      · simp [allowInsert, noticesPolicies, evalCheck, evalUsing, hr, hne]
      · simp [allowDelete, noticesPolicies, evalUsing, hr, hne]
      · intro r2
        simp [allowUpdate, noticesPolicies, evalUsing, evalCheck, hr, hne]

/-- C2 witness: in the sample database the admin of `AAAA` (user 3) may
insert a fee there, while student 1 — a member of that same tenant — is
denied the insert. -/
theorem admin_supremacy_witness :
    WellFormed sampleDB ∧ sampleSchoolA ∈ sampleDB.schools ∧
    allowInsert feesPolicies sampleDB (some 3) sampleFeeA = true ∧
    allowInsert feesPolicies sampleDB (some 1) sampleFeeA = false := by
  have h := admin_supremacy sampleDB (by decide) sampleSchoolA (by decide)
  refine ⟨by decide, by decide, ?_, ?_⟩
  · exact (h.2.1 sampleFeeA rfl).2.1
  · exact ((h.2.2.2 (some 1) (by decide)).2.1 sampleFeeA rfl).1

/-- C3 counterexample: the claim's "update allowed exactly when the existing
row's admin_id equals the caller" fails in the ← direction — caller 1 owns
the existing row, yet an update handing `admin_id` to user 2 is denied,
because the UPDATE policy's USING expression is also enforced (as WITH
CHECK) against the updated row. -/
theorem schools_update_existing_owner_counterexample :
    ((some 1 : Option UserId) =
        some (SchoolRow.mk 0 "S" "C" 1 0 0).admin_id) ∧
    allowUpdate schoolsPolicies DB.empty (some 1)
      (SchoolRow.mk 0 "S" "C" 1 0 0) (SchoolRow.mk 0 "S" "C" 2 0 0) = false :=
  ⟨rfl, by decide⟩

/-- C3 (amended).  Tenant directory policy: any caller (authenticated or
not) may select any schools row; insert is allowed exactly when the caller
holds role admin and the inserted row's `admin_id` is the caller; update is
allowed exactly when the caller is the `admin_id` of both the existing and
the updated row (the USING clause doubles as WITH CHECK); and delete is
always denied, so no non-owner — indeed nobody — can remove a tenant
record. -/
theorem schools_policy_characterization :
    (∀ (db : DB) (uid : Option UserId) (row : SchoolRow),
        allowSelect schoolsPolicies db uid row = true) ∧
    (∀ (db : DB) (uid : Option UserId) (row : SchoolRow),
        allowInsert schoolsPolicies db uid row = true ↔
          (has_role db uid AppRole.admin = true ∧ uid = some row.admin_id)) ∧
    (∀ (db : DB) (uid : Option UserId) (oldRow newRow : SchoolRow),
        allowUpdate schoolsPolicies db uid oldRow newRow = true ↔
          (uid = some oldRow.admin_id ∧ uid = some newRow.admin_id)) ∧
    (∀ (db : DB) (uid : Option UserId) (row : SchoolRow),
        allowDelete schoolsPolicies db uid row = false) := by
  refine ⟨?_, ?_, ?_, ?_⟩
  · intro db uid row
    simp [allowSelect, schoolsPolicies, evalUsing]
  · intro db uid row
    simp [allowInsert, schoolsPolicies, evalCheck, evalUsing]
    exact fun _ => eq_comm
  · intro db uid oldRow newRow
    simp [allowUpdate, schoolsPolicies, evalUsing, evalCheck]
    constructor
    · rintro ⟨h1, h2⟩
      exact ⟨h1.symm, h2.symm⟩
    · rintro ⟨h1, h2⟩
      exact ⟨h1.symm, h2.symm⟩
  · intro db uid row
    simp [allowDelete, schoolsPolicies, evalUsing]

/-- C4.  Self-profile restriction: a caller can never select, insert, or
update a profiles row of a different identity, and each of the three
operations is permitted exactly when every profile row it touches (the
existing row for select, the inserted row, and both the existing and the
updated row for update — USING doubling as WITH CHECK) carries the caller's
own `user_id`. -/
theorem self_profile_restriction :
    (∀ (db : DB) (u1 u2 : UserId), u1 ≠ u2 →
      ∀ r : ProfileRow, r.user_id = u2 →
        allowSelect profilesPolicies db (some u1) r = false ∧
        allowInsert profilesPolicies db (some u1) r = false ∧
        ∀ r2 : ProfileRow,
          allowUpdate profilesPolicies db (some u1) r r2 = false) ∧
    (∀ (db : DB) (uid : Option UserId) (r : ProfileRow),
        allowSelect profilesPolicies db uid r = true ↔ uid = some r.user_id) ∧
    (∀ (db : DB) (uid : Option UserId) (r : ProfileRow),
        allowInsert profilesPolicies db uid r = true ↔ uid = some r.user_id) ∧
    (∀ (db : DB) (uid : Option UserId) (oldRow newRow : ProfileRow),
        allowUpdate profilesPolicies db uid oldRow newRow = true ↔
          (uid = some oldRow.user_id ∧ uid = some newRow.user_id)) := by
  refine ⟨?_, ?_, ?_, ?_⟩
  · intro db u1 u2 hne r hr
    refine ⟨?_, ?_, ?_⟩
    · simp [allowSelect, profilesPolicies, evalUsing, hr]
      exact hne
    · simp [allowInsert, profilesPolicies, evalCheck, evalUsing, hr]
      exact hne
    · intro r2
      simp [allowUpdate, profilesPolicies, evalUsing, evalCheck, hr]
      intro h
      exact absurd h hne
  · intro db uid r
    simp [allowSelect, profilesPolicies, evalUsing]
  · intro db uid r
    simp [allowInsert, profilesPolicies, evalCheck, evalUsing]
  · intro db uid oldRow newRow
    simp [allowUpdate, profilesPolicies, evalUsing, evalCheck]

/-- C4 witness: user 1 cannot select user 2's profile row. -/
theorem self_profile_restriction_witness :
    (1 : UserId) ≠ 2 ∧
    allowSelect profilesPolicies sampleDB (some 1)
      (ProfileRow.mk 11 2 "Other" none 0 0) = false :=
  ⟨by decide,
    (self_profile_restriction.1 sampleDB 1 2 (by decide)
      (ProfileRow.mk 11 2 "Other" none 0 0) rfl).1⟩

/-- C9.  No deletion of identity or tenant records: RLS is enabled on
`schools`, `profiles`, and `user_roles` and the migration declares no
DELETE policy for them, so a delete on any of their rows is denied for
every caller — the owning admin included. -/
theorem no_delete_of_identity_or_tenant_records :
    (∀ (db : DB) (uid : Option UserId) (r : SchoolRow),
        allowDelete schoolsPolicies db uid r = false) ∧
    (∀ (db : DB) (uid : Option UserId) (r : ProfileRow),
        allowDelete profilesPolicies db uid r = false) ∧
    (∀ (db : DB) (uid : Option UserId) (r : UserRoleRow),
        allowDelete userRolesPolicies db uid r = false) := by
  refine ⟨?_, ?_, ?_⟩
  · intro db uid r
    simp [allowDelete, schoolsPolicies, evalUsing]
  · intro db uid r
    simp [allowDelete, profilesPolicies, evalUsing]
  · intro db uid r
    simp [allowDelete, userRolesPolicies, evalUsing]

/-- C10.  No cross-tenant re-homing via update: the update policies on
scholarships, fees, and notices have only a USING clause, which PostgreSQL
also enforces (as WITH CHECK) against the updated row; so an update is
allowed exactly when the caller administers both the existing and the new
`school_code`, and in particular no one can move a resource into a tenant
administered by someone else. -/
theorem no_cross_tenant_rehoming :
    (∀ (db : DB) (uid : Option UserId) (oldRow newRow : ScholarshipRow),
        allowUpdate scholarshipsPolicies db uid oldRow newRow = true ↔
          (is_school_admin db uid oldRow.school_code = true ∧
           is_school_admin db uid newRow.school_code = true)) ∧
    (∀ (db : DB) (uid : Option UserId) (oldRow newRow : FeeRow),
        allowUpdate feesPolicies db uid oldRow newRow = true ↔
          (is_school_admin db uid oldRow.school_code = true ∧
           is_school_admin db uid newRow.school_code = true)) ∧
    (∀ (db : DB) (uid : Option UserId) (oldRow newRow : NoticeRow),
        allowUpdate noticesPolicies db uid oldRow newRow = true ↔
          (is_school_admin db uid oldRow.school_code = true ∧
           is_school_admin db uid newRow.school_code = true)) ∧
    (∀ (db : DB) (u : UserId) (s : SchoolRow), WellFormed db →
        s ∈ db.schools → s.admin_id ≠ u →
        (∀ (oldRow newRow : ScholarshipRow),
            newRow.school_code = s.school_code →
            allowUpdate scholarshipsPolicies db (some u) oldRow newRow
              = false) ∧
        (∀ (oldRow newRow : FeeRow), newRow.school_code = s.school_code →
            allowUpdate feesPolicies db (some u) oldRow newRow = false) ∧
        (∀ (oldRow newRow : NoticeRow), newRow.school_code = s.school_code →
            allowUpdate noticesPolicies db (some u) oldRow newRow
              = false)) := by
  refine ⟨?_, ?_, ?_, ?_⟩
  · intro db uid oldRow newRow
    simp [allowUpdate, scholarshipsPolicies, evalUsing, evalCheck]
  · intro db uid oldRow newRow
    simp [allowUpdate, feesPolicies, evalUsing, evalCheck]
  · intro db uid oldRow newRow
    simp [allowUpdate, noticesPolicies, evalUsing, evalCheck]
  · intro db u s hwf hs hne
    have h := is_school_admin_ne db hwf s hs (some u)
      (fun hc => hne (Option.some.inj hc.symm))
    refine ⟨?_, ?_, ?_⟩
    · intro oldRow newRow hcode
      simp [allowUpdate, scholarshipsPolicies, evalUsing, evalCheck, hcode, h]
    · intro oldRow newRow hcode
      simp [allowUpdate, feesPolicies, evalUsing, evalCheck, hcode, h]
    · intro oldRow newRow hcode
      simp [allowUpdate, noticesPolicies, evalUsing, evalCheck, hcode, h]

/-- C10 witness: the admin of `BBBB` (user 2) cannot move tenant `BBBB`'s
scholarship into `AAAA`, which user 3 administers. -/
theorem no_cross_tenant_rehoming_witness :
    WellFormed sampleDB ∧ sampleSchoolA ∈ sampleDB.schools ∧
    sampleSchoolA.admin_id ≠ 2 ∧
    allowUpdate scholarshipsPolicies sampleDB (some 2) sampleScholarshipB
      (ScholarshipRow.mk 40 "AAAA" "Grant" none none none none 0 0)
      = false :=
  ⟨by decide, by decide, by decide,
    ((no_cross_tenant_rehoming.2.2.2 sampleDB 2 sampleSchoolA (by decide)
        (by decide) (by decide)).1 sampleScholarshipB
      (ScholarshipRow.mk 40 "AAAA" "Grant" none none none none 0 0) rfl)⟩

/-- C7.  Duplicate-code error distinguishability: creating a school whose
normalized code is already taken yields the unique-constraint error; of two
creations racing for one code (serialized by the store) the first succeeds
and the second receives that error; and `CreateSchool.handleSubmit` renders
it as the specific "code is already taken" message, distinct from how any
non-duplicate failure (e.g. an RLS rejection) is rendered. -/
theorem duplicate_code_error_distinguishable :
    (∀ (db : DB) (u : UserId) (sid : Nat) (name rawCode : String)
        (now : Time),
      allowInsert schoolsPolicies db (some u)
        (SchoolRow.mk sid name (normalizeCode rawCode) u now now) = true →
      db.schools.any
        (fun s => s.school_code == normalizeCode rawCode) = true →
      createSchool db (some u) sid name rawCode now =
        Except.error uniqueViolationSchoolCode) ∧
    (∀ (db : DB) (u1 u2 : UserId) (sid1 sid2 : Nat)
        (name1 name2 raw1 raw2 : String) (now1 now2 : Time),
      normalizeCode raw2 = normalizeCode raw1 →
      allowInsert schoolsPolicies db (some u1)
        (SchoolRow.mk sid1 name1 (normalizeCode raw1) u1 now1 now1) = true →
      db.schools.any
        (fun s => s.school_code == normalizeCode raw1) = false →
      ∃ db1, createSchool db (some u1) sid1 name1 raw1 now1 =
          Except.ok db1 ∧
        db1.schools.any
          (fun s => s.school_code == normalizeCode raw2) = true ∧
        (allowInsert schoolsPolicies db1 (some u2)
            (SchoolRow.mk sid2 name2 (normalizeCode raw2) u2 now2 now2)
            = true →
          createSchool db1 (some u2) sid2 name2 raw2 now2 =
            Except.error uniqueViolationSchoolCode)) ∧
    describeCreateSchoolError uniqueViolationSchoolCode =
      "This school code is already taken. Please choose a different one." ∧
    describeCreateSchoolError rlsViolationSchools =
      rlsViolationSchools.message ∧
    "This school code is already taken. Please choose a different one." ≠
      rlsViolationSchools.message := by
  refine ⟨?_, ?_, by decide, by decide, by decide⟩
  · intro db u sid name rawCode now hallow hdup
    exact createSchool_duplicate db u sid name rawCode now hallow hdup
  · intro db u1 u2 sid1 sid2 name1 name2 raw1 raw2 now1 now2 hraw h1 hfree
    refine ⟨updateOwnProfileCode
        { db with schools :=
            SchoolRow.mk sid1 name1 (normalizeCode raw1) u1 now1 now1
              :: db.schools }
        u1 (normalizeCode raw1) now1, ?_, ?_, ?_⟩
    · simp [createSchool, h1, hfree]
    · simp [updateOwnProfileCode, hraw]
    · intro h2
      apply createSchool_duplicate
      · exact h2
      · simp [updateOwnProfileCode, hraw]

/-- C7 witness: admins 2 and 3 race for code `CCCC` (the second spelling it
`cccc`); the first creation succeeds and the second hits the duplicate-key
error. -/
theorem duplicate_code_error_distinguishable_witness :
    normalizeCode "cccc" = normalizeCode "CCCC" ∧
    allowInsert schoolsPolicies sampleDB (some 2)
      (SchoolRow.mk 100 "New School" (normalizeCode "CCCC") 2 5 5) = true ∧
    sampleDB.schools.any
      (fun s => s.school_code == normalizeCode "CCCC") = false ∧
    ∃ db1, createSchool sampleDB (some 2) 100 "New School" "CCCC" 5 =
        Except.ok db1 ∧
      db1.schools.any
        (fun s => s.school_code == normalizeCode "cccc") = true ∧
      (allowInsert schoolsPolicies db1 (some 3)
          (SchoolRow.mk 101 "Rival School" (normalizeCode "cccc") 3 6 6)
          = true →
        createSchool db1 (some 3) 101 "Rival School" "cccc" 6 =
          Except.error uniqueViolationSchoolCode) :=
  ⟨by decide, by decide, by decide,
    duplicate_code_error_distinguishable.2.1 sampleDB 2 3 100 101
      "New School" "Rival School" "CCCC" "cccc" 5 6 (by decide) (by decide)
      (by decide)⟩

/-- C5.  Monotonic tenant membership: once a user's profile `school_code`
is non-null, no sequence of exposed operations (signup, createTenant,
joinTenant, admin CRUD) can set it back to null; and no exposed operation
ever removes a role-assignment row — membership and role are one-way. -/
theorem monotonic_membership :
    (∀ (ops : List Op) (db : DB) (u : UserId),
        (get_user_school_code db (some u)).isSome = true →
        (get_user_school_code (applyOps ops db) (some u)).isSome = true) ∧
    (∀ (ops : List Op) (db : DB) (r : UserRoleRow),
        r ∈ db.user_roles → r ∈ (applyOps ops db).user_roles) := by
  constructor
  · intro ops
    induction ops with
    | nil =>
      intro db u h
      exact h
    | cons op rest ih =>
      intro db u h
      exact ih (step op db) u (step_member op db u h)
  · intro ops
    induction ops with
    | nil =>
      intro db r h
      exact h
    | cons op rest ih =>
      intro db r h
      exact ih (step op db) r (step_roles_mono op db r h)

/-- C5 witness: student 1's tenant code stays non-null across a joinTenant
call for another code. -/
theorem monotonic_membership_witness :
    (get_user_school_code sampleDB (some 1)).isSome = true ∧
    (get_user_school_code (applyOps [Op.joinTenant 1 "BBBB" 7] sampleDB)
      (some 1)).isSome = true :=
  ⟨by decide,
    monotonic_membership.1 [Op.joinTenant 1 "BBBB" 7] sampleDB 1 (by decide)⟩

/-- C6.  Role immutability: the RLS layer denies every update and delete on
`user_roles` (no such policy exists), and across any run of exposed
operations a provisioned user's `fetchRole` lookup keeps returning exactly
the role inserted at signup. -/
theorem role_immutability :
    (∀ (db : DB) (uid : Option UserId) (r1 r2 : UserRoleRow),
        allowUpdate userRolesPolicies db uid r1 r2 = false) ∧
    (∀ (db : DB) (uid : Option UserId) (r : UserRoleRow),
        allowDelete userRolesPolicies db uid r = false) ∧
    (∀ (ops : List Op) (db : DB) (u : UserId) (r : AppRole),
        hasProfile db u = true → fetchRole db u = some r →
        fetchRole (applyOps ops db) u = some r) := by
  refine ⟨?_, ?_, ?_⟩
  · intro db uid r1 r2
    rfl
  · intro db uid r
    rfl
  · intro ops db u r hp hrole
    obtain ⟨h1, h2⟩ := applyOps_role_state ops db u hp
    unfold fetchRole at hrole ⊢
    rw [h2]
    exact hrole

/-- C6 witness: after another student signs up and the admin posts a
notice, user 1's role lookup still returns `student`. -/
theorem role_immutability_witness :
    hasProfile sampleDB 1 = true ∧
    fetchRole sampleDB 1 = some AppRole.student ∧
    fetchRole (applyOps
      [Op.signup 5 50 51 "Eve" AppRole.student 9,
       Op.insertNotice (some 3) 60 (NoticeData.mk "AAAA" "T" "C" "normal") 10]
      sampleDB) 1 = some AppRole.student :=
  ⟨by decide, by decide,
    role_immutability.2.2
      [Op.signup 5 50 51 "Eve" AppRole.student 9,
       Op.insertNotice (some 3) 60 (NoticeData.mk "AAAA" "T" "C" "normal") 10]
      sampleDB 1 AppRole.student (by decide) (by decide)⟩

/-- C8.  Timestamp monotonicity: every accepted update stamps the row's
`updated_at` with the operation's `now()` (the `update_updated_at_column`
trigger); `created_at ≤ updated_at` holds in every state reached by a
chronological run of exposed operations; and repeated accepted updates of a
row at strictly increasing instants strictly increase its `updated_at`. -/
theorem timestamp_monotonicity :
    (∀ (db : DB) (uid : Option UserId) (targetId : Nat)
        (d : ScholarshipData) (n : Time),
      ∀ r ∈ (step (Op.updateScholarship uid targetId d n) db).scholarships,
        r ∈ db.scholarships ∨ r.updated_at = n) ∧
    (∀ (db : DB) (uid : Option UserId) (targetId : Nat) (d : FeeData)
        (n : Time),
      ∀ r ∈ (step (Op.updateFee uid targetId d n) db).fees,
        r ∈ db.fees ∨ r.updated_at = n) ∧
    (∀ (db : DB) (uid : Option UserId) (targetId : Nat) (d : NoticeData)
        (n : Time),
      ∀ r ∈ (step (Op.updateNotice uid targetId d n) db).notices,
        r ∈ db.notices ∨ r.updated_at = n) ∧
    (∀ (db : DB) (v : UserId) (code : String) (n : Time),
      ∀ p ∈ (updateOwnProfileCode db v code n).profiles,
        p ∈ db.profiles ∨ p.updated_at = n) ∧
    (∀ (t : Time) (db : DB) (ops : List Op),
        TimesLe t db → ChronoFrom t ops →
        CreatedLeUpdated (applyOps ops db)) ∧
    (∀ (d1 d2 : ScholarshipData) (r : ScholarshipRow) (n1 n2 : Time),
        n1 < n2 →
        (applyScholarshipData d1 r n1).updated_at <
          (applyScholarshipData d2 (applyScholarshipData d1 r n1)
            n2).updated_at) ∧
    (∀ (d1 d2 : FeeData) (r : FeeRow) (n1 n2 : Time),
        n1 < n2 →
        (applyFeeData d1 r n1).updated_at <
          (applyFeeData d2 (applyFeeData d1 r n1) n2).updated_at) ∧
    (∀ (d1 d2 : NoticeData) (r : NoticeRow) (n1 n2 : Time),
        n1 < n2 →
        (applyNoticeData d1 r n1).updated_at <
          (applyNoticeData d2 (applyNoticeData d1 r n1) n2).updated_at) := by
  refine ⟨?_, ?_, ?_, ?_, ?_, ?_, ?_, ?_⟩
  · intro db uid targetId d n r hr
    have hT := tracks_map (fun x : ScholarshipRow => x.created_at)
      (fun x => x.updated_at) n db.scholarships
      (fun r => if (r.id == targetId &&
          allowUpdate scholarshipsPolicies db uid r
            (applyScholarshipData d r n)) = true
        then applyScholarshipData d r n else r) ?hf
    case hf =>
      intro y
      simp only []
      by_cases hcond : (y.id == targetId &&
          allowUpdate scholarshipsPolicies db uid y
            (applyScholarshipData d y n)) = true
      · rw [if_pos hcond]
        right
        exact ⟨rfl, rfl⟩
      · rw [if_neg hcond]
        left
        rfl
    rcases hT r hr with hm | ⟨_, h2⟩ | ⟨_, _, _, h2⟩
    · exact Or.inl hm
    · exact Or.inr h2
    · exact Or.inr h2
  · intro db uid targetId d n r hr
    have hT := tracks_map (fun x : FeeRow => x.created_at)
      (fun x => x.updated_at) n db.fees
      (fun r => if (r.id == targetId &&
          allowUpdate feesPolicies db uid r (applyFeeData d r n)) = true
        then applyFeeData d r n else r) ?hf
    case hf =>
      intro y
      simp only []
      by_cases hcond : (y.id == targetId &&
          allowUpdate feesPolicies db uid y (applyFeeData d y n)) = true
      · rw [if_pos hcond]
        right
        exact ⟨rfl, rfl⟩
      · rw [if_neg hcond]
        left
        rfl
    rcases hT r hr with hm | ⟨_, h2⟩ | ⟨_, _, _, h2⟩
    · exact Or.inl hm
    · exact Or.inr h2
    · exact Or.inr h2
  · intro db uid targetId d n r hr
    have hT := tracks_map (fun x : NoticeRow => x.created_at)
      (fun x => x.updated_at) n db.notices
      (fun r => if (r.id == targetId &&
          allowUpdate noticesPolicies db uid r (applyNoticeData d r n))
            = true
        then applyNoticeData d r n else r) ?hf
    case hf =>
      intro y
      simp only []
      by_cases hcond : (y.id == targetId &&
          allowUpdate noticesPolicies db uid y (applyNoticeData d y n))
            = true
      · rw [if_pos hcond]
        right
        exact ⟨rfl, rfl⟩
      · rw [if_neg hcond]
        left
        rfl
    rcases hT r hr with hm | ⟨_, h2⟩ | ⟨_, _, _, h2⟩
    · exact Or.inl hm
    · exact Or.inr h2
    · exact Or.inr h2
  · intro db v code n p hp
    rcases updateOwnProfileCode_tracks db v code n p hp with
      hm | ⟨_, h2⟩ | ⟨_, _, _, h2⟩
    · exact Or.inl hm
    · exact Or.inr h2
    · exact Or.inr h2
  · intro t db ops ht hc
    exact applyOps_createdLe ops t db ht hc
  · intro d1 d2 r n1 n2 h
    simpa [applyScholarshipData] using h
  · intro d1 d2 r n1 n2 h
    simpa [applyFeeData] using h
  · intro d1 d2 r n1 n2 h
    simpa [applyNoticeData] using h

/-- C8 witness: starting from the empty database, a chronological signup,
school creation, and notice insert leave every row with
`created_at ≤ updated_at`. -/
theorem timestamp_monotonicity_witness :
    TimesLe 0 DB.empty ∧
    ChronoFrom 0
      [Op.signup 1 70 71 "Ada" AppRole.admin 1,
       Op.createTenant 1 72 "Sky High" "SKY1" 2,
       Op.insertNotice (some 1) 73
         (NoticeData.mk "SKY1" "Welcome" "Hello" "normal") 3] ∧
    CreatedLeUpdated (applyOps
      [Op.signup 1 70 71 "Ada" AppRole.admin 1,
       Op.createTenant 1 72 "Sky High" "SKY1" 2,
       Op.insertNotice (some 1) 73
         (NoticeData.mk "SKY1" "Welcome" "Hello" "normal") 3] DB.empty) :=
  ⟨⟨by simp [DB.empty], by simp [DB.empty], by simp [DB.empty], by simp [DB.empty], by simp [DB.empty]⟩,
    ⟨by decide, by decide, by decide, trivial⟩,
    timestamp_monotonicity.2.2.2.2.1 0 DB.empty
      [Op.signup 1 70 71 "Ada" AppRole.admin 1,
       Op.createTenant 1 72 "Sky High" "SKY1" 2,
       Op.insertNotice (some 1) 73
         (NoticeData.mk "SKY1" "Welcome" "Hello" "normal") 3]
      ⟨by simp [DB.empty], by simp [DB.empty], by simp [DB.empty], by simp [DB.empty], by simp [DB.empty]⟩
      ⟨by decide, by decide, by decide, trivial⟩⟩

end SchoolConnect
